import Mathlib

/-!
# Verification of the sylphie_database migration engine

A shallow embedding of `src/sylphie_database/src/migrations.rs`.

The Rust code drives a SQL connection: we model the durable database state
(`DbState`) explicitly, model each driver call (`execute_batch`, `query_row`,
`execute`, `transaction_with_type`, `commit`) as an entry in a statement
trace whose success is decided by an environment of oracles (`DbEnv`), and
model the transaction by threading a pending copy of the database that is
installed only by a successful commit.  Log macros (`warn!`, `trace!`,
`info!`, `error!`) become entries in a log list.
-/

/-- `MigrationScriptData` from migrations.rs: one migration step.
`from`/`to` are `u32` in Rust; no arithmetic is ever performed on them
(only equality tests and stores), so `Nat` is a faithful model. -/
structure MigrationScriptData where
  «from» : Nat
  «to» : Nat
  script_name : String
  script_data : String
deriving DecidableEq, Repr

/-- `MigrationData` from migrations.rs: one migration set.
The Rust `&'static [MigrationScriptData]` becomes a `List`. -/
structure MigrationData where
  migration_id : String
  migration_set_name : String
  is_transient : Bool
  target_version : Nat
  scripts : List MigrationScriptData
deriving DecidableEq, Repr

/-- A `&'static MigrationData` reference: the payload together with its
address, which the Rust code compares (`as *const _ as usize`) for the
identity-based repeat/conflict warnings. -/
structure MigrationDataRef where
  addr : Nat
  data : MigrationData
deriving DecidableEq, Repr

/-- `create_migrations_table_sql` from migrations.rs (the `format!` string
with line continuations resolved). -/
def create_migrations_table_sql (is_transient : Bool) : String :=
  "CREATE TABLE IF NOT EXISTS " ++
    (if is_transient then "transient." else "") ++
    "sylphie_db_migrations_tracking ( " ++
    "migration_name TEXT NOT NULL PRIMARY KEY, " ++
    "current_version INTEGER NOT NULL " ++
    ") WITHOUT ROWID; "

/-- `query_migrations_table_sql` from migrations.rs. -/
def query_migrations_table_sql (is_transient : Bool) : String :=
  "SELECT current_version FROM " ++
    (if is_transient then "transient." else "") ++
    "sylphie_db_migrations_tracking " ++
    "WHERE migration_name = ?; "

/-- `replace_migrations_table_sql` from migrations.rs. -/
def replace_migrations_table_sql (is_transient : Bool) : String :=
  "REPLACE INTO " ++
    (if is_transient then "transient." else "") ++
    "sylphie_db_migrations_tracking " ++
    "(migration_name, current_version) " ++
    "VALUES(?, ?); "

/-- Model of Rust `str::split` with a single-character pattern, on the
character list of the string: `"a/b".split('/') = ["a", "b"]`,
`"".split('/') = [""]`, `"/".split('/') = ["", ""]`. -/
def splitChar (c : Char) : List Char → List (List Char)
  | [] => [[]]
  | x :: xs =>
    match splitChar c xs with
    | [] => [[]]
    | cur :: rest => if x == c then [] :: cur :: rest else (x :: cur) :: rest

/-- Model of Rust `str::rsplit` with a single-character pattern: the pieces
of `split`, in reverse order. -/
def rsplitChar (c : Char) (s : String) : List (List Char) :=
  (splitChar c s.data).reverse

/-- Model of `script_name.rsplit('/').next()` from the logging path of
`execute_migration`: the first element of the reverse split, if any. -/
def rsplitNextSlash (s : String) : Option String :=
  (rsplitChar '/' s).head?.map (fun l => String.mk l)

/-- The displayed script name: `script_name.rsplit('/').next().unwrap()`.
The `unwrap` is total (see the safety theorem below); the `Option.getD`
default is never taken. -/
def scriptDisplayName (s : String) : String :=
  (rsplitNextSlash s).getD ""

/-- Association-list lookup (models a keyed SQL row lookup / `HashMap::get`). -/
def lookupAssoc {α : Type} (l : List (String × α)) (k : String) : Option α :=
  match l with
  | [] => none
  | (k2, v) :: rest => if k2 == k then some v else lookupAssoc rest k

/-- Association-list keyed store: models SQLite `REPLACE INTO` on a table
whose primary key is the string column, and `HashMap::insert`. -/
def setAssoc {α : Type} (l : List (String × α)) (k : String) (v : α) :
    List (String × α) :=
  match l with
  | [] => [(k, v)]
  | (k2, v2) :: rest =>
    if k2 == k then (k, v) :: rest else (k2, v2) :: setAssoc rest k v

/-- The durable database state: the two tracking tables (persistent scope
and the `transient.`-qualified scope) and the cumulative side effects of
committed migration script bodies (each committed `execute_batch` body, in
order). -/
structure DbState where
  persistent_tracking : List (String × Nat)
  transient_tracking : List (String × Nat)
  script_effects : List String
deriving DecidableEq, Repr

/-- The tracking table selected by an `is_transient` flag. -/
def DbState.tracking (db : DbState) (is_transient : Bool) : List (String × Nat) :=
  if is_transient then db.transient_tracking else db.persistent_tracking

/-- Write `current_version` for `migration_name` into the tracking table
selected by `is_transient` (REPLACE semantics). -/
def DbState.setTracking (db : DbState) (is_transient : Bool) (k : String) (v : Nat) :
    DbState :=
  if is_transient then
    { db with transient_tracking := setAssoc db.transient_tracking k v }
  else
    { db with persistent_tracking := setAssoc db.persistent_tracking k v }

/-- One driver call issued by `execute_migration`, as recorded in the
statement trace.  `connBatch` is `conn.execute_batch` (outside any
transaction); `begin` is `conn.transaction_with_type(Exclusive)`; `query`
is `transaction.query_row(sql, id)`; `txnBatch` is
`transaction.execute_batch` on a script body; `txnExec` is
`transaction.execute(sql, (id, version))`; `commit` is
`transaction.commit()`. -/
inductive Stmt where
  | connBatch (sql : String)
  | begin
  | query (sql : String) (p : String)
  | txnBatch (sql : String)
  | txnExec (sql : String) (p1 : String) (p2 : Nat)
  | commit
deriving DecidableEq, Repr

/-- The error values `execute_migration` can return: a driver error
propagated by `?` from the failing statement, or the explicit
`bail!("Could not successfully apply migration.")`. -/
inductive MigError where
  | driver (s : Stmt)
  | couldNotApply (msg : String)
deriving DecidableEq, Repr

/-- A pointer value as produced by an `as *const _ as usize` cast in the
warning block, tagged by the allocation it points into.  `staticData n` is
the address of a `&'static MigrationData` (the `migration` parameter);
`watchSlot` is the address of the `HashMap` slot returned by
`repeat_transaction_watch.get` (the cast of `data : &&'static
MigrationData` without a deref takes the slot's own address).  Rust
guarantees distinct live allocations have distinct addresses, so a slot
address never equals a static data address; the slot's numeric value is a
runtime allocation artifact the program never compares against anything
but a static address, so the embedding does not model it further. -/
inductive PtrAddr where
  | staticData (n : Nat)
  | watchSlot
deriving DecidableEq, Repr

/-- One log emission from `execute_migration` (`warn!`, `trace!`, `info!`,
`error!` macros), carrying exactly the format arguments of the source. -/
inductive LogEntry where
  | warnRepeat (id : String)
  | warnConflict (id newName : String) (newAddr : PtrAddr) (oldName : String) (oldAddr : PtrAddr)
  | traceRunning (setName : String)
  | infoRunningScript (setName display : String)
  | errorVersionMismatch (setName : String) (target start current : Nat)
deriving DecidableEq, Repr

/-- The driver-success oracles: whether each kind of statement succeeds
when issued.  This models the fallibility of every `.await?` point. -/
structure DbEnv where
  batchOk : String → Bool
  execOk : String → String → Nat → Bool
  queryOk : String → String → Bool
  beginOk : Bool
  commitOk : Bool

/-- The environment in which every driver call succeeds. -/
def allOkEnv : DbEnv :=
  { batchOk := fun _ => true
    execOk := fun _ _ _ => true
    queryOk := fun _ _ => true
    beginOk := true
    commitOk := true }

/-- Every driver operation succeeds in `env`. -/
def DbEnv.AllOk (env : DbEnv) : Prop :=
  (∀ s, env.batchOk s = true) ∧ (∀ a b c, env.execOk a b c = true) ∧
  (∀ a b, env.queryOk a b = true) ∧ env.beginOk = true ∧ env.commitOk = true

/-- `MigrationManagerState` from migrations.rs.  The Rust
`HashMap<&'static str, &'static MigrationData>` becomes an association
list from id to reference. -/
structure MigrationManagerState where
  tables_created : Bool
  repeat_transaction_watch : List (String × MigrationDataRef)
deriving DecidableEq, Repr

/-- `MigrationManagerState::create_migrations_table`: if the flag is not
set, issue the two creation batches (persistent then transient); the flag
is set only after both succeed; a failure propagates immediately (so the
second batch is not issued when the first fails). Returns the result, the
updated manager state, and the trace of issued statements. -/
def MigrationManagerState.create_migrations_table (env : DbEnv)
    (st : MigrationManagerState) :
    Except MigError Unit × MigrationManagerState × List Stmt :=
  if st.tables_created then
    (Except.ok (), st, [])
  else
    let c0 := create_migrations_table_sql false
    if env.batchOk c0 then
      let c1 := create_migrations_table_sql true
      if env.batchOk c1 then
        (Except.ok (), { st with tables_created := true },
         [Stmt.connBatch c0, Stmt.connBatch c1])
      else
        (Except.error (MigError.driver (Stmt.connBatch c1)), st,
         [Stmt.connBatch c0, Stmt.connBatch c1])
    else
      (Except.error (MigError.driver (Stmt.connBatch c0)), st, [Stmt.connBatch c0])

/-- Result of the script-walk loop: the final running version and pending
transaction state on success, a driver error otherwise, with the trace of
statements issued inside the transaction and the logs emitted. -/
structure WalkOut where
  res : Except MigError (Nat × DbState)
  trace : List Stmt
  logs : List LogEntry
deriving Repr

/-- The `for script in migration.scripts` loop of `execute_migration`:
each script whose `from` equals the running version has its body executed
as a batch, then the tracking row is REPLACEd with its `to`, and the
running version advances to `to`; other scripts are skipped.  `txn` is the
pending transaction state. -/
def runScripts (env : DbEnv) (m : MigrationData) :
    List MigrationScriptData → Nat → DbState → WalkOut
  | [], current_version, txn => ⟨Except.ok (current_version, txn), [], []⟩
  | script :: rest, current_version, txn =>
    if current_version == script.«from» then
      let lg := LogEntry.infoRunningScript m.migration_set_name
        (scriptDisplayName script.script_name)
      let s1 := Stmt.txnBatch script.script_data
      if env.batchOk script.script_data then
        let txn1 := { txn with script_effects := txn.script_effects ++ [script.script_data] }
        let rsql := replace_migrations_table_sql m.is_transient
        let s2 := Stmt.txnExec rsql m.migration_id script.«to»
        if env.execOk rsql m.migration_id script.«to» then
          let txn2 := txn1.setTracking m.is_transient m.migration_id script.«to»
          let out := runScripts env m rest script.«to» txn2
          ⟨out.res, s1 :: s2 :: out.trace, lg :: out.logs⟩
        else
          ⟨Except.error (MigError.driver s2), [s1, s2], [lg]⟩
      else
        ⟨Except.error (MigError.driver s1), [s1], [lg]⟩
    else
      runScripts env m rest current_version txn

/-- The repeat/conflict warning block of `execute_migration`: if
`repeat_transaction_watch` already holds an entry for the set id, warn.
In the source, `data_off` is the cast of `data : &&'static MigrationData`
(the `HashMap` slot's address, `PtrAddr.watchSlot`) while `migration_off`
is the cast of `migration : &'static MigrationData` (the static data's
address), so the equality test compares a slot address with a static
address and the repeat branch — kept here exactly as in the source — can
never fire; the conflict warning names the new and prior sets with the
new set's address and the slot's address.  Never an error. -/
def conflictWarns (w : List (String × MigrationDataRef)) (migration : MigrationDataRef) :
    List LogEntry :=
  match lookupAssoc w migration.data.migration_id with
  | some prior =>
    let data_off := PtrAddr.watchSlot
    let migration_off := PtrAddr.staticData migration.addr
    if data_off == migration_off then
      [LogEntry.warnRepeat migration.data.migration_id]
    else
      [LogEntry.warnConflict migration.data.migration_id
        migration.data.migration_set_name migration_off
        prior.data.migration_set_name data_off]
  | none => []

/-- The full outcome of one `execute_migration` call on the manager state:
the returned `Result`, the manager state and durable database afterwards,
the trace of issued statements, the emitted logs, and — when the walk ran
to completion — the pair `(start_version, current_version)` of the local
variables at the comparison against `target_version`. -/
structure ExecOut where
  res : Except MigError Unit
  state : MigrationManagerState
  db : DbState
  trace : List Stmt
  logs : List LogEntry
  versions : Option (Nat × Nat)
deriving Repr

/-- `MigrationManagerState::execute_migration`, line by line:
create the tracking tables if needed; check `repeat_transaction_watch` and
warn (repeat or conflict) without aborting; open an exclusive transaction;
read the stored version for the set id from the scope-selected tracking
table, defaulting to 0; walk the scripts; compare the reached version to
`target_version` and `bail!` on mismatch without committing; otherwise
commit and record the set in `repeat_transaction_watch`. -/
def MigrationManagerState.execute_migration (env : DbEnv)
    (st : MigrationManagerState) (db : DbState) (migration : MigrationDataRef) :
    ExecOut :=
  match MigrationManagerState.create_migrations_table env st with
  | (Except.error e, st1, ctrace) =>
    ⟨Except.error e, st1, db, ctrace, [], none⟩
  | (Except.ok _, st1, ctrace) =>
    let logs0 := conflictWarns st1.repeat_transaction_watch migration ++
      [LogEntry.traceRunning migration.data.migration_set_name]
    if env.beginOk then
      let qsql := query_migrations_table_sql migration.data.is_transient
      if env.queryOk qsql migration.data.migration_id then
        let start_version :=
          (lookupAssoc (db.tracking migration.data.is_transient)
            migration.data.migration_id).getD 0
        let baseTrace := ctrace ++ [Stmt.begin, Stmt.query qsql migration.data.migration_id]
        let walk := runScripts env migration.data migration.data.scripts start_version db
        match walk.res with
        | Except.error e =>
          ⟨Except.error e, st1, db, baseTrace ++ walk.trace, logs0 ++ walk.logs, none⟩
        | Except.ok (current_version, txn) =>
          if migration.data.target_version != current_version then
            ⟨Except.error (MigError.couldNotApply "Could not successfully apply migration."),
             st1, db, baseTrace ++ walk.trace,
             logs0 ++ walk.logs ++
               [LogEntry.errorVersionMismatch migration.data.migration_set_name
                 migration.data.target_version start_version current_version],
             some (start_version, current_version)⟩
          else
            if env.commitOk then
              ⟨Except.ok (),
               { st1 with repeat_transaction_watch :=
                   setAssoc st1.repeat_transaction_watch migration.data.migration_id migration },
               txn, baseTrace ++ walk.trace ++ [Stmt.commit], logs0 ++ walk.logs,
               some (start_version, current_version)⟩
            else
              ⟨Except.error (MigError.driver Stmt.commit), st1, db,
               baseTrace ++ walk.trace ++ [Stmt.commit], logs0 ++ walk.logs,
               some (start_version, current_version)⟩
      else
        ⟨Except.error (MigError.driver (Stmt.query qsql migration.data.migration_id)),
         st1, db, ctrace ++ [Stmt.begin, Stmt.query qsql migration.data.migration_id],
         logs0, none⟩
    else
      ⟨Except.error (MigError.driver Stmt.begin), st1, db, ctrace ++ [Stmt.begin],
       logs0, none⟩

/-- Projection: the final running version of a completed script walk. -/
def walkFinalVersion (w : WalkOut) : Option Nat :=
  match w.res with
  | Except.ok (v, _) => some v
  | Except.error _ => none

/-- Whether an `execute_migration` result is a success. -/
def isOkResult : Except MigError Unit → Bool
  | Except.ok _ => true
  | Except.error _ => false

/-- Stated from the claim: the final version is the fold, over the script
list in order, of "advance to `to` when `from` equals the running
version". -/
def specVersionFold (scripts : List MigrationScriptData) (v : Nat) : Nat :=
  scripts.foldl (fun cur s => if cur == s.«from» then s.«to» else cur) v

/-- Stated from the claim: the statements the walk is expected to issue —
for exactly the scripts whose `from` matches the running version, the body
as a batch then the REPLACE of the tracking row with the script's `to`. -/
def specScriptTrace (m : MigrationData) : List MigrationScriptData → Nat → List Stmt
  | [], _ => []
  | s :: rest, cur =>
    if cur == s.«from» then
      Stmt.txnBatch s.script_data ::
        Stmt.txnExec (replace_migrations_table_sql m.is_transient) m.migration_id s.«to» ::
        specScriptTrace m rest s.«to»
    else
      specScriptTrace m rest cur

/-- Stated from the claim: the creation statements one call is expected to
issue, given the `tables_created` flag at its start. -/
def creationTrace (env : DbEnv) (flag : Bool) : List Stmt :=
  if flag then []
  else if env.batchOk (create_migrations_table_sql false) then
    [Stmt.connBatch (create_migrations_table_sql false),
     Stmt.connBatch (create_migrations_table_sql true)]
  else
    [Stmt.connBatch (create_migrations_table_sql false)]

/-- The result of the table-creation step as a function of the flag. -/
def creationOutcome (env : DbEnv) (flag : Bool) : Except MigError Unit :=
  if flag then Except.ok ()
  else if env.batchOk (create_migrations_table_sql false) then
    if env.batchOk (create_migrations_table_sql true) then Except.ok ()
    else Except.error (MigError.driver (Stmt.connBatch (create_migrations_table_sql true)))
  else
    Except.error (MigError.driver (Stmt.connBatch (create_migrations_table_sql false)))

/-- Drop the repeat/conflict warnings from a log, keeping everything else. -/
def eraseWarns (logs : List LogEntry) : List LogEntry :=
  logs.filter fun e =>
    match e with
    | LogEntry.warnRepeat _ => false
    | LogEntry.warnConflict _ _ _ _ _ => false
    | _ => true

/-- Substring test on character lists. -/
def listContainsSub (n : List Char) : List Char → Bool
  | [] => n.isEmpty
  | x :: t => n.isPrefixOf (x :: t) || listContainsSub n t

/-- Substring test on strings. -/
def strContainsSub (n hay : String) : Bool :=
  listContainsSub n.data hay.data

/-- String starts-with test on the underlying character lists. -/
def strStartsWith (n hay : String) : Bool :=
  n.data.isPrefixOf hay.data

/-- Test fixture: a 0 → 1 script. -/
def s01 : MigrationScriptData := ⟨0, 1, "sql/a/create.sql", "CREATE TABLE t(a);"⟩

/-- Test fixture: a 1 → 2 script. -/
def s12 : MigrationScriptData := ⟨1, 2, "sql/addcol.sql", "ALTER TABLE t ADD b;"⟩

/-- Test fixture: a two-step persistent migration set with target 2. -/
def m0 : MigrationData := ⟨"id0", "Set Zero", false, 2, [s01, s12]⟩

/-- Test fixture: a reference to `m0` at address 100. -/
def mref0 : MigrationDataRef := ⟨100, m0⟩

/-- Test fixture: a fresh manager state. -/
def st0 : MigrationManagerState := ⟨false, []⟩

/-- Test fixture: an empty database. -/
def db0 : DbState := ⟨[], [], []⟩

deriving instance DecidableEq for Except

/-- Test fixture: an environment in which every `execute_batch` fails. -/
def failBatchEnv : DbEnv :=
  { batchOk := fun _ => false
    execOk := fun _ _ _ => true
    queryOk := fun _ _ => true
    beginOk := true
    commitOk := true }

/-- Test fixture: a manager state whose tracking tables already exist. -/
def stc : MigrationManagerState := ⟨true, []⟩

/-- Test fixture: a set whose script moves away from its own target. -/
def m3 : MigrationData := ⟨"id3", "Set Three", false, 1, [⟨1, 2, "s.sql", "BODY3"⟩]⟩

/-- Test fixture: a reference to `m3` at address 300. -/
def mref3 : MigrationDataRef := ⟨300, m3⟩

/-- Test fixture: a database already storing version 1 for `id3`. -/
def db3 : DbState := ⟨[("id3", 1)], [], []⟩

/-- Test fixture: a database already storing version 2 for `id0`. -/
def db2 : DbState := ⟨[("id0", 2)], [], []⟩

/-- Test fixture: an empty set with an unreachable target. -/
def m4a : MigrationData := ⟨"ida", "Alpha", false, 5, []⟩

/-- Test fixture: a one-script set with an unreachable target. -/
def m4b : MigrationData := ⟨"idb", "Beta", false, 3, [⟨0, 1, "x.sql", "B4"⟩]⟩

/-- Test fixture: a reference to `m4a` at address 400. -/
def mref4a : MigrationDataRef := ⟨400, m4a⟩

/-- Test fixture: a reference to `m4b` at address 401. -/
def mref4b : MigrationDataRef := ⟨401, m4b⟩

/-- Test fixture: a manager state whose watch already holds `mref0`
itself — the same `&'static MigrationData` about to be executed again. -/
def strp : MigrationManagerState := ⟨true, [("id0", mref0)]⟩

/-- Stated from the claim: the table-creation discipline along a sequence
of calls on one manager — each call issues creation batches only as the
`creationTrace` prefix of its trace (empty whenever the flag is already
set, so no later call issues creation statements), the flag becomes true
exactly when it was true or both creation batches succeeded, and the flag
never falls back to false. -/
def runCallsDiscipline : List (DbEnv × MigrationDataRef) → MigrationManagerState → DbState → Prop
  | [], _, _ => True
  | (env, mref) :: rest, st, db =>
    (∃ r, (MigrationManagerState.execute_migration env st db mref).trace =
        creationTrace env st.tables_created ++ r ∧ ∀ q, Stmt.connBatch q ∉ r) ∧
    ((MigrationManagerState.execute_migration env st db mref).state.tables_created =
      (st.tables_created || (env.batchOk (create_migrations_table_sql false) &&
        env.batchOk (create_migrations_table_sql true)))) ∧
    (st.tables_created = true → creationTrace env st.tables_created = []) ∧
    (st.tables_created = true →
      (MigrationManagerState.execute_migration env st db mref).state.tables_created = true) ∧
    runCallsDiscipline rest (MigrationManagerState.execute_migration env st db mref).state
      (MigrationManagerState.execute_migration env st db mref).db

/-- `splitChar` always yields at least one piece. -/
lemma splitChar_ne_nil (c : Char) (l : List Char) : splitChar c l ≠ [] := by
  induction l with
  | nil => simp [splitChar]
  | cons x xs ih =>
    simp only [splitChar]
    cases h : splitChar c xs with
    | nil => simp
    | cons cur rest =>
      by_cases hx : x == c <;> simp [hx]

/-- C10: for every script name, `script_name.rsplit('/').next()` yields a
value — the reverse split of any string over `'/'` is nonempty, so the
`unwrap` in the logging path of `execute_migration` is total. -/
theorem c10_rsplit_next_total (s : String) :
    rsplitChar '/' s ≠ [] ∧ (rsplitNextSlash s).isSome = true := by
  have h : rsplitChar '/' s ≠ [] := by
    unfold rsplitChar
    simp only [ne_eq, List.reverse_eq_nil_iff]
    exact splitChar_ne_nil _ _
  refine ⟨h, ?_⟩
  unfold rsplitNextSlash
  cases hh : (rsplitChar '/' s).head? with
  | none => exact absurd (List.head?_eq_none_iff.mp hh) h
  | some v => simp [hh]

/-- Characterization of the table-creation step: result and trace depend
only on the flag and the batch oracle; the watch is untouched; the flag
afterwards is true exactly when it was true before or both creation
batches succeeded. -/
lemma create_migrations_table_eq (env : DbEnv) (st : MigrationManagerState) :
    MigrationManagerState.create_migrations_table env st =
      (creationOutcome env st.tables_created,
       ⟨st.tables_created ||
          (env.batchOk (create_migrations_table_sql false) &&
           env.batchOk (create_migrations_table_sql true)),
        st.repeat_transaction_watch⟩,
       creationTrace env st.tables_created) := by
  cases st with
  | mk flag w =>
    cases flag <;>
      cases h0 : env.batchOk (create_migrations_table_sql false) <;>
        cases h1 : env.batchOk (create_migrations_table_sql true) <;>
          simp [MigrationManagerState.create_migrations_table, creationOutcome,
            creationTrace, h0, h1]

/-- The walk never issues a commit statement. -/
lemma runScripts_no_commit (env : DbEnv) (m : MigrationData) :
    ∀ (scripts : List MigrationScriptData) (v : Nat) (txn : DbState),
      Stmt.commit ∉ (runScripts env m scripts v txn).trace := by
  intro scripts
  induction scripts with
  | nil => intro v txn; simp [runScripts]
  | cons s rest ih =>
    intro v txn
    simp only [runScripts]
    by_cases hm : v == s.«from»
    · simp only [hm, if_true]
      by_cases hb : env.batchOk s.script_data
      · simp only [hb, if_true]
        by_cases he : env.execOk (replace_migrations_table_sql m.is_transient)
            m.migration_id s.«to»
        · simp only [he, if_true]
          simp only [List.mem_cons]
          push_neg
          exact ⟨by simp, by simp, ih _ _⟩
        · simp [he]
      · simp [hb]
    · simp only [hm, if_false]
      exact ih _ _

/-- The walk never issues a raw-connection batch (creation) statement. -/
lemma runScripts_no_connBatch (env : DbEnv) (m : MigrationData) :
    ∀ (scripts : List MigrationScriptData) (v : Nat) (txn : DbState) (q : String),
      Stmt.connBatch q ∉ (runScripts env m scripts v txn).trace := by
  intro scripts
  induction scripts with
  | nil => intro v txn q; simp [runScripts]
  | cons s rest ih =>
    intro v txn q
    simp only [runScripts]
    by_cases hm : v == s.«from»
    · simp only [hm, if_true]
      by_cases hb : env.batchOk s.script_data
      · simp only [hb, if_true]
        by_cases he : env.execOk (replace_migrations_table_sql m.is_transient)
            m.migration_id s.«to»
        · simp only [he, if_true]
          simp only [List.mem_cons]
          push_neg
          exact ⟨by simp, by simp, ih _ _ _⟩
        · simp [he]
      · simp [hb]
    · simp only [hm, if_false]
      exact ih _ _ _

/-- When every driver operation succeeds, the walk runs to completion with
the fold of the matching rule as final version and the expected
batch/REPLACE trace. -/
lemma runScripts_allOk (env : DbEnv) (m : MigrationData) (h : env.AllOk) :
    ∀ (scripts : List MigrationScriptData) (v : Nat) (txn : DbState),
      walkFinalVersion (runScripts env m scripts v txn) = some (specVersionFold scripts v) ∧
      (runScripts env m scripts v txn).trace = specScriptTrace m scripts v := by
  obtain ⟨hb, he, _, _, _⟩ := h
  intro scripts
  induction scripts with
  | nil => intro v txn; simp [runScripts, walkFinalVersion, specVersionFold, specScriptTrace]
  | cons s rest ih =>
    intro v txn
    simp only [runScripts, specScriptTrace, specVersionFold, List.foldl_cons]
    by_cases hm : v == s.«from»
    · simp only [hm, if_true, hb, he]
      obtain ⟨ih1, ih2⟩ := ih s.«to» ((({ txn with
        script_effects := txn.script_effects ++ [s.script_data] }) : DbState).setTracking
          m.is_transient m.migration_id s.«to»)
      refine ⟨?_, by simp [ih2]⟩
      simp only [walkFinalVersion] at ih1 ⊢
      cases hres : (runScripts env m rest s.«to» (DbState.setTracking { txn with
        script_effects := txn.script_effects ++ [s.script_data] }
          m.is_transient m.migration_id s.«to»)).res with
      | ok p => rw [hres] at ih1; simpa [specVersionFold] using ih1
      | error e => rw [hres] at ih1; simp at ih1
    · simp only [hm, if_false]
      simpa [specVersionFold] using ih v txn

/-- The walk never touches the tracking table of the other scope. -/
lemma runScripts_other_scope (env : DbEnv) (m : MigrationData) :
    ∀ (scripts : List MigrationScriptData) (v : Nat) (txn : DbState)
      (cur : Nat) (txn2 : DbState),
      (runScripts env m scripts v txn).res = Except.ok (cur, txn2) →
      txn2.tracking (!m.is_transient) = txn.tracking (!m.is_transient) := by
  intro scripts
  induction scripts with
  | nil =>
    intro v txn cur txn2 hres
    simp only [runScripts] at hres
    cases hres
    rfl
  | cons s rest ih =>
    intro v txn cur txn2 hres
    simp only [runScripts] at hres
    by_cases hm : v == s.«from»
    · simp only [hm, if_true] at hres
      by_cases hb : env.batchOk s.script_data
      · simp only [hb, if_true] at hres
        by_cases he : env.execOk (replace_migrations_table_sql m.is_transient)
            m.migration_id s.«to»
        · simp only [he, if_true] at hres
          have := ih s.«to» _ cur txn2 hres
          rw [this]
          cases hmt : m.is_transient <;>
            simp [DbState.setTracking, DbState.tracking, hmt]
        · simp [he] at hres
      · simp [hb] at hres
    · simp only [hm, if_false] at hres
      exact ih v txn cur txn2 hres

/-- When batches always succeed, table creation succeeds. -/
lemma creationOutcome_allOk (env : DbEnv) (flag : Bool)
    (hb : ∀ s, env.batchOk s = true) : creationOutcome env flag = Except.ok () := by
  cases flag <;> simp [creationOutcome, hb]

/-- C1: with every driver operation succeeding, `execute_migration` reads
the stored version for the set id from the scope-selected tracking table
(0 when absent), the walk issues exactly the matching scripts' bodies each
followed by the REPLACE of the tracking row with its `to`, and the version
the call compares against `target_version` is the fold of the
advance-on-match rule over the script list from the stored version. -/
theorem c1_read_walk_fold (env : DbEnv) (st : MigrationManagerState) (db : DbState)
    (mref : MigrationDataRef) (h : env.AllOk) :
    walkFinalVersion (runScripts env mref.data mref.data.scripts
        ((lookupAssoc (db.tracking mref.data.is_transient) mref.data.migration_id).getD 0) db) =
      some (specVersionFold mref.data.scripts
        ((lookupAssoc (db.tracking mref.data.is_transient) mref.data.migration_id).getD 0)) ∧
    (runScripts env mref.data mref.data.scripts
        ((lookupAssoc (db.tracking mref.data.is_transient) mref.data.migration_id).getD 0) db).trace =
      specScriptTrace mref.data mref.data.scripts
        ((lookupAssoc (db.tracking mref.data.is_transient) mref.data.migration_id).getD 0) ∧
    (MigrationManagerState.execute_migration env st db mref).versions =
      some ((lookupAssoc (db.tracking mref.data.is_transient) mref.data.migration_id).getD 0,
        specVersionFold mref.data.scripts
          ((lookupAssoc (db.tracking mref.data.is_transient) mref.data.migration_id).getD 0)) := by
  obtain ⟨hwv, hwt⟩ := runScripts_allOk env mref.data h
    mref.data.scripts
    ((lookupAssoc (db.tracking mref.data.is_transient) mref.data.migration_id).getD 0) db
  refine ⟨hwv, hwt, ?_⟩
  obtain ⟨hb, he, hq, hbeg, hcom⟩ := h
  rw [MigrationManagerState.execute_migration, create_migrations_table_eq,
    creationOutcome_allOk env st.tables_created hb]
  simp only [hbeg, hq, if_true]
  simp only [walkFinalVersion] at hwv
  cases hres : (runScripts env mref.data mref.data.scripts
      ((lookupAssoc (db.tracking mref.data.is_transient) mref.data.migration_id).getD 0) db).res with
  | error e => rw [hres] at hwv; simp at hwv
  | ok p =>
    rw [hres] at hwv
    obtain ⟨cur, txn⟩ := p
    simp only [Option.some_inj] at hwv
    cases hwv
    by_cases hne : mref.data.target_version != specVersionFold mref.data.scripts
        ((lookupAssoc (db.tracking mref.data.is_transient) mref.data.migration_id).getD 0) <;>
      simp [hne, hcom]

/-- The all-success environment satisfies `AllOk`. -/
lemma allOkEnv_AllOk : allOkEnv.AllOk :=
  ⟨fun _ => rfl, fun _ _ _ => rfl, fun _ _ => rfl, rfl, rfl⟩

theorem c1_read_walk_fold_witness :
    allOkEnv.AllOk ∧
    (walkFinalVersion (runScripts allOkEnv mref0.data mref0.data.scripts
        ((lookupAssoc (db0.tracking mref0.data.is_transient) mref0.data.migration_id).getD 0) db0) =
      some (specVersionFold mref0.data.scripts
        ((lookupAssoc (db0.tracking mref0.data.is_transient) mref0.data.migration_id).getD 0)) ∧
    (runScripts allOkEnv mref0.data mref0.data.scripts
        ((lookupAssoc (db0.tracking mref0.data.is_transient) mref0.data.migration_id).getD 0) db0).trace =
      specScriptTrace mref0.data mref0.data.scripts
        ((lookupAssoc (db0.tracking mref0.data.is_transient) mref0.data.migration_id).getD 0) ∧
    (MigrationManagerState.execute_migration allOkEnv st0 db0 mref0).versions =
      some ((lookupAssoc (db0.tracking mref0.data.is_transient) mref0.data.migration_id).getD 0,
        specVersionFold mref0.data.scripts
          ((lookupAssoc (db0.tracking mref0.data.is_transient) mref0.data.migration_id).getD 0))) :=
  ⟨allOkEnv_AllOk, c1_read_walk_fold allOkEnv st0 db0 mref0 allOkEnv_AllOk⟩

/-- A creation trace never contains a commit. -/
lemma commit_not_mem_creationTrace (env : DbEnv) (flag : Bool) :
    Stmt.commit ∉ creationTrace env flag := by
  unfold creationTrace
  split_ifs <;> simp

/-- A creation trace never contains a transaction batch. -/
lemma txnBatch_not_mem_creationTrace (env : DbEnv) (flag : Bool) (q : String) :
    Stmt.txnBatch q ∉ creationTrace env flag := by
  unfold creationTrace
  split_ifs <;> simp


/-- C2: all-or-nothing semantics per call.  Whenever `execute_migration`
returns an error, the durable database — stored versions and committed
script side effects — is exactly what it was before the call, and unless
the error is the commit statement itself failing, no commit was ever
issued: the transaction is abandoned, not committed. -/
theorem c2_error_rolls_back (env : DbEnv) (st : MigrationManagerState) (db : DbState)
    (mref : MigrationDataRef) (e : MigError)
    (h : (MigrationManagerState.execute_migration env st db mref).res = Except.error e) :
    (MigrationManagerState.execute_migration env st db mref).db = db ∧
    (e ≠ MigError.driver Stmt.commit →
      Stmt.commit ∉ (MigrationManagerState.execute_migration env st db mref).trace) := by
  revert h
  rw [MigrationManagerState.execute_migration, create_migrations_table_eq]
  cases hco : creationOutcome env st.tables_created with
  | error e0 =>
    intro h
    exact ⟨rfl, fun _ => commit_not_mem_creationTrace env st.tables_created⟩
  | ok u =>
    cases u
    cases hbeg : env.beginOk with
    | false =>
      intro h
      refine ⟨rfl, fun _ => ?_⟩
      simp [commit_not_mem_creationTrace env st.tables_created]
    | true =>
      dsimp only
      cases hq : env.queryOk (query_migrations_table_sql mref.data.is_transient)
          mref.data.migration_id with
      | false =>
        intro h
        refine ⟨rfl, fun _ => ?_⟩
        simp [commit_not_mem_creationTrace env st.tables_created]
      | true =>
        cases hres : (runScripts env mref.data mref.data.scripts
            ((lookupAssoc (db.tracking mref.data.is_transient)
              mref.data.migration_id).getD 0) db).res with
        | error e1 =>
          intro h
          refine ⟨rfl, fun _ => ?_⟩
          simp [commit_not_mem_creationTrace env st.tables_created,
            runScripts_no_commit env mref.data]
        | ok p =>
          obtain ⟨cur, txn⟩ := p
          by_cases hne : (mref.data.target_version != cur) = true
          · simp only [hne, if_true]
            intro h
            refine ⟨by trivial, fun _ => ?_⟩
            simp [commit_not_mem_creationTrace env st.tables_created,
              runScripts_no_commit env mref.data]
          · simp only [hne, if_false]
            cases hcom : env.commitOk with
            | true =>
              intro h
              simp at h
            | false =>
              intro h
              simp at h
              refine ⟨rfl, fun hne2 => ?_⟩
              exact absurd h.symm hne2

theorem c2_error_rolls_back_witness :
    ((MigrationManagerState.execute_migration failBatchEnv stc db0 mref0).res =
      Except.error (MigError.driver (Stmt.txnBatch "CREATE TABLE t(a);"))) ∧
    ((MigrationManagerState.execute_migration failBatchEnv stc db0 mref0).db = db0 ∧
     (MigError.driver (Stmt.txnBatch "CREATE TABLE t(a);") ≠ MigError.driver Stmt.commit →
       Stmt.commit ∉ (MigrationManagerState.execute_migration failBatchEnv stc db0 mref0).trace)) :=
  ⟨by decide, c2_error_rolls_back failBatchEnv stc db0 mref0 _ (by decide)⟩

/-- C3 counterexample: a set whose stored version equals `target_version`
but which contains a script with `from = target_version`.  Re-running it
is not a no-op: the script body executes and the call returns the
migration-failure error rather than success. -/
theorem c3_counterexample :
    lookupAssoc (db3.tracking m3.is_transient) m3.migration_id = some m3.target_version ∧
    Stmt.txnBatch "BODY3" ∈ (MigrationManagerState.execute_migration allOkEnv stc db3 mref3).trace ∧
    (MigrationManagerState.execute_migration allOkEnv stc db3 mref3).res =
      Except.error (MigError.couldNotApply "Could not successfully apply migration.") := by
  decide

/-- If no script's `from` equals the running version, the walk does
nothing. -/
lemma runScripts_no_match (env : DbEnv) (m : MigrationData) (t : Nat) :
    ∀ (scripts : List MigrationScriptData) (txn : DbState),
      (∀ s ∈ scripts, s.«from» ≠ t) →
      runScripts env m scripts t txn = ⟨Except.ok (t, txn), [], []⟩ := by
  intro scripts
  induction scripts with
  | nil => intro txn _; simp [runScripts]
  | cons s rest ih =>
    intro txn h
    have hs : s.«from» ≠ t := h s (List.mem_cons_self s rest)
    have hm : (t == s.«from») = false := by
      simp only [beq_eq_false_iff_ne, ne_eq]
      exact fun hh => hs hh.symm
    simp only [runScripts, hm, if_false]
    exact ih txn (fun s2 hs2 => h s2 (List.mem_cons_of_mem s hs2))

/-- C3 (amended): for every set whose stored version equals
`target_version` and in which no script's `from` equals `target_version`,
re-running `execute_migration` is a no-op aside from the warning: no
script body executes, the database (stored version included) is unchanged,
and the call succeeds. -/
theorem c3_noop_when_at_target (env : DbEnv) (st : MigrationManagerState) (db : DbState)
    (mref : MigrationDataRef) (h1 : env.AllOk)
    (h2 : lookupAssoc (db.tracking mref.data.is_transient) mref.data.migration_id =
      some mref.data.target_version)
    (h3 : ∀ s ∈ mref.data.scripts, s.«from» ≠ mref.data.target_version) :
    (MigrationManagerState.execute_migration env st db mref).res = Except.ok () ∧
    (MigrationManagerState.execute_migration env st db mref).db = db ∧
    ∀ q, Stmt.txnBatch q ∉ (MigrationManagerState.execute_migration env st db mref).trace := by
  obtain ⟨hb, he, hq, hbeg, hcom⟩ := h1
  rw [MigrationManagerState.execute_migration, create_migrations_table_eq,
    creationOutcome_allOk env st.tables_created hb]
  simp only [hbeg, hq, if_true]
  rw [h2]
  simp only [Option.getD_some]
  rw [runScripts_no_match env mref.data mref.data.target_version mref.data.scripts db h3]
  simp only [bne_self_eq_false, if_false, hcom, if_true]
  refine ⟨rfl, rfl, fun q => ?_⟩
  simp [txnBatch_not_mem_creationTrace env st.tables_created]

theorem c3_noop_when_at_target_witness :
    allOkEnv.AllOk ∧
    lookupAssoc (db2.tracking mref0.data.is_transient) mref0.data.migration_id =
      some mref0.data.target_version ∧
    (∀ s ∈ mref0.data.scripts, s.«from» ≠ mref0.data.target_version) ∧
    (MigrationManagerState.execute_migration allOkEnv stc db2 mref0).res = Except.ok () ∧
    (MigrationManagerState.execute_migration allOkEnv stc db2 mref0).db = db2 ∧
    Stmt.txnBatch "CREATE TABLE t(a);" ∉
      (MigrationManagerState.execute_migration allOkEnv stc db2 mref0).trace :=
  ⟨allOkEnv_AllOk, by decide, by decide,
    (c3_noop_when_at_target allOkEnv stc db2 mref0 allOkEnv_AllOk (by decide) (by decide)).1,
    (c3_noop_when_at_target allOkEnv stc db2 mref0 allOkEnv_AllOk (by decide) (by decide)).2.1,
    (c3_noop_when_at_target allOkEnv stc db2 mref0 allOkEnv_AllOk (by decide) (by decide)).2.2
      "CREATE TABLE t(a);"⟩

/-- C4 counterexample: two version-mismatch failures with different display
names, different intended targets, and different started/reached versions
return literally the same error value — `bail!` constructs it from a fixed
message, so the returned error carries none of those data (they are
emitted on the error log instead). -/
theorem c4_counterexample :
    m4a.migration_set_name ≠ m4b.migration_set_name ∧
    m4a.target_version ≠ m4b.target_version ∧
    (MigrationManagerState.execute_migration allOkEnv stc db0 mref4a).versions ≠
      (MigrationManagerState.execute_migration allOkEnv stc db0 mref4b).versions ∧
    (MigrationManagerState.execute_migration allOkEnv stc db0 mref4a).res =
      (MigrationManagerState.execute_migration allOkEnv stc db0 mref4b).res ∧
    (MigrationManagerState.execute_migration allOkEnv stc db0 mref4a).res =
      Except.error (MigError.couldNotApply "Could not successfully apply migration.") := by
  decide

/-- C4 (amended): when the walk completes at a version different from
`target_version`, `execute_migration` returns the distinct, explicitly
constructed migration-failure error (whose value is the fixed message),
and the set's display name, intended target, starting version, and reached
version are reported through the error-level log entry. -/
theorem c4_mismatch_error_logged (env : DbEnv) (st : MigrationManagerState) (db : DbState)
    (mref : MigrationDataRef) (h1 : env.AllOk)
    (h2 : specVersionFold mref.data.scripts
        ((lookupAssoc (db.tracking mref.data.is_transient) mref.data.migration_id).getD 0) ≠
      mref.data.target_version) :
    (MigrationManagerState.execute_migration env st db mref).res =
      Except.error (MigError.couldNotApply "Could not successfully apply migration.") ∧
    LogEntry.errorVersionMismatch mref.data.migration_set_name mref.data.target_version
        ((lookupAssoc (db.tracking mref.data.is_transient) mref.data.migration_id).getD 0)
        (specVersionFold mref.data.scripts
          ((lookupAssoc (db.tracking mref.data.is_transient) mref.data.migration_id).getD 0)) ∈
      (MigrationManagerState.execute_migration env st db mref).logs := by
  obtain ⟨hwv, hwt⟩ := runScripts_allOk env mref.data h1 mref.data.scripts
    ((lookupAssoc (db.tracking mref.data.is_transient) mref.data.migration_id).getD 0) db
  obtain ⟨hb, he, hq, hbeg, hcom⟩ := h1
  rw [MigrationManagerState.execute_migration, create_migrations_table_eq,
    creationOutcome_allOk env st.tables_created hb]
  simp only [hbeg, hq, if_true]
  simp only [walkFinalVersion] at hwv
  cases hres : (runScripts env mref.data mref.data.scripts
      ((lookupAssoc (db.tracking mref.data.is_transient) mref.data.migration_id).getD 0) db).res with
  | error e => rw [hres] at hwv; simp at hwv
  | ok p =>
    rw [hres] at hwv
    obtain ⟨cur, txn⟩ := p
    simp only [Option.some_inj] at hwv
    cases hwv
    have hne : (mref.data.target_version != specVersionFold mref.data.scripts
        ((lookupAssoc (db.tracking mref.data.is_transient) mref.data.migration_id).getD 0)) = true := by
      simp only [bne_iff_ne, ne_eq]
      exact fun hh => h2 hh.symm
    simp [hne]

theorem c4_mismatch_error_logged_witness :
    allOkEnv.AllOk ∧
    specVersionFold mref4b.data.scripts
        ((lookupAssoc (db0.tracking mref4b.data.is_transient) mref4b.data.migration_id).getD 0) ≠
      mref4b.data.target_version ∧
    (MigrationManagerState.execute_migration allOkEnv stc db0 mref4b).res =
      Except.error (MigError.couldNotApply "Could not successfully apply migration.") ∧
    LogEntry.errorVersionMismatch mref4b.data.migration_set_name mref4b.data.target_version
        ((lookupAssoc (db0.tracking mref4b.data.is_transient) mref4b.data.migration_id).getD 0)
        (specVersionFold mref4b.data.scripts
          ((lookupAssoc (db0.tracking mref4b.data.is_transient) mref4b.data.migration_id).getD 0)) ∈
      (MigrationManagerState.execute_migration allOkEnv stc db0 mref4b).logs :=
  ⟨allOkEnv_AllOk, by decide,
    (c4_mismatch_error_logged allOkEnv stc db0 mref4b allOkEnv_AllOk (by decide)).1,
    (c4_mismatch_error_logged allOkEnv stc db0 mref4b allOkEnv_AllOk (by decide)).2⟩

/-- Looking up a key right after storing it yields the stored value. -/
lemma lookupAssoc_setAssoc {α : Type} (l : List (String × α)) (k : String) (v : α) :
    lookupAssoc (setAssoc l k v) k = some v := by
  induction l with
  | nil => simp [setAssoc, lookupAssoc]
  | cons p rest ih =>
    obtain ⟨k2, v2⟩ := p
    by_cases hk : (k2 == k) = true
    · simp [setAssoc, lookupAssoc, hk]
    · simp only [setAssoc, hk, if_false]
      simp only [lookupAssoc, hk, if_false]
      exact ih

/-- C5: `repeat_transaction_watch` (the `last_applied` map) is updated only
after a fully successful call: every erroring call leaves it exactly as it
was, and every successful call stores the executed set under its id. -/
theorem c5_watch_updated_only_on_success (env : DbEnv) (st : MigrationManagerState)
    (db : DbState) (mref : MigrationDataRef) :
    (isOkResult (MigrationManagerState.execute_migration env st db mref).res = false →
      (MigrationManagerState.execute_migration env st db mref).state.repeat_transaction_watch =
        st.repeat_transaction_watch) ∧
    (isOkResult (MigrationManagerState.execute_migration env st db mref).res = true →
      (MigrationManagerState.execute_migration env st db mref).state.repeat_transaction_watch =
        setAssoc st.repeat_transaction_watch mref.data.migration_id mref ∧
      lookupAssoc
        (MigrationManagerState.execute_migration env st db mref).state.repeat_transaction_watch
        mref.data.migration_id = some mref) := by
  rw [MigrationManagerState.execute_migration, create_migrations_table_eq]
  cases hco : creationOutcome env st.tables_created with
  | error e0 =>
    exact ⟨fun _ => rfl, fun hk => absurd hk Bool.false_ne_true⟩
  | ok u =>
    cases u
    cases hbeg : env.beginOk with
    | false => exact ⟨fun _ => rfl, fun hk => absurd hk Bool.false_ne_true⟩
    | true =>
      dsimp only
      cases hq : env.queryOk (query_migrations_table_sql mref.data.is_transient)
          mref.data.migration_id with
      | false => exact ⟨fun _ => rfl, fun hk => absurd hk Bool.false_ne_true⟩
      | true =>
        cases hres : (runScripts env mref.data mref.data.scripts
            ((lookupAssoc (db.tracking mref.data.is_transient)
              mref.data.migration_id).getD 0) db).res with
        | error e1 => exact ⟨fun _ => rfl, fun hk => absurd hk Bool.false_ne_true⟩
        | ok p =>
          obtain ⟨cur, txn⟩ := p
          by_cases hne : (mref.data.target_version != cur) = true
          · simp only [hne, if_true]
            exact ⟨fun _ => trivial, fun hk => absurd hk Bool.false_ne_true⟩
          · simp only [hne, if_false]
            cases hcom : env.commitOk with
            | true =>
              refine ⟨fun hk => Bool.noConfusion hk, fun _ => ⟨rfl, ?_⟩⟩
              exact lookupAssoc_setAssoc st.repeat_transaction_watch mref.data.migration_id mref
            | false => exact ⟨fun _ => rfl, fun hk => absurd hk Bool.false_ne_true⟩

theorem c5_watch_updated_only_on_success_witness :
    (isOkResult (MigrationManagerState.execute_migration failBatchEnv stc db0 mref0).res = false ∧
     (MigrationManagerState.execute_migration failBatchEnv stc db0 mref0).state.repeat_transaction_watch =
       stc.repeat_transaction_watch) ∧
    (isOkResult (MigrationManagerState.execute_migration allOkEnv stc db0 mref0).res = true ∧
     lookupAssoc
       (MigrationManagerState.execute_migration allOkEnv stc db0 mref0).state.repeat_transaction_watch
       mref0.data.migration_id = some mref0) :=
  ⟨⟨by decide, (c5_watch_updated_only_on_success failBatchEnv stc db0 mref0).1 (by decide)⟩,
   ⟨by decide, ((c5_watch_updated_only_on_success allOkEnv stc db0 mref0).2 (by decide)).2⟩⟩

/-- `eraseWarns` distributes over append. -/
lemma eraseWarns_append (a b : List LogEntry) :
    eraseWarns (a ++ b) = eraseWarns a ++ eraseWarns b := by
  simp [eraseWarns, List.filter_append]

/-- The repeat/conflict block emits only warnings, all of which
`eraseWarns` removes. -/
lemma eraseWarns_conflictWarns (w : List (String × MigrationDataRef))
    (mref : MigrationDataRef) : eraseWarns (conflictWarns w mref) = [] := by
  unfold conflictWarns
  cases h : lookupAssoc w mref.data.migration_id with
  | none => rfl
  | some prior => rfl

/-- The repeat/conflict check reads only `repeat_transaction_watch`, and
nothing else reads it: two calls differing only in the watch agree on the
result, the database, the statement trace, the versions, the tables flag,
and on every non-warning log entry. -/
lemma exec_watch_irrelevant (env : DbEnv) (flag : Bool)
    (w1 w2 : List (String × MigrationDataRef)) (db : DbState) (mref : MigrationDataRef) :
    (MigrationManagerState.execute_migration env ⟨flag, w1⟩ db mref).res =
      (MigrationManagerState.execute_migration env ⟨flag, w2⟩ db mref).res ∧
    (MigrationManagerState.execute_migration env ⟨flag, w1⟩ db mref).db =
      (MigrationManagerState.execute_migration env ⟨flag, w2⟩ db mref).db ∧
    (MigrationManagerState.execute_migration env ⟨flag, w1⟩ db mref).trace =
      (MigrationManagerState.execute_migration env ⟨flag, w2⟩ db mref).trace ∧
    (MigrationManagerState.execute_migration env ⟨flag, w1⟩ db mref).versions =
      (MigrationManagerState.execute_migration env ⟨flag, w2⟩ db mref).versions ∧
    (MigrationManagerState.execute_migration env ⟨flag, w1⟩ db mref).state.tables_created =
      (MigrationManagerState.execute_migration env ⟨flag, w2⟩ db mref).state.tables_created ∧
    eraseWarns (MigrationManagerState.execute_migration env ⟨flag, w1⟩ db mref).logs =
      eraseWarns (MigrationManagerState.execute_migration env ⟨flag, w2⟩ db mref).logs := by
  rw [MigrationManagerState.execute_migration, MigrationManagerState.execute_migration,
    create_migrations_table_eq, create_migrations_table_eq]
  cases hco : creationOutcome env flag with
  | error e0 => exact ⟨rfl, rfl, rfl, rfl, rfl, rfl⟩
  | ok u =>
    cases u
    dsimp only
    cases hbeg : env.beginOk with
    | false =>
      refine ⟨rfl, rfl, rfl, rfl, rfl, ?_⟩
      simp [eraseWarns_append, eraseWarns_conflictWarns]
    | true =>
      cases hq : env.queryOk (query_migrations_table_sql mref.data.is_transient)
          mref.data.migration_id with
      | false =>
        refine ⟨rfl, rfl, rfl, rfl, rfl, ?_⟩
        simp [eraseWarns_append, eraseWarns_conflictWarns]
      | true =>
        cases hres : (runScripts env mref.data mref.data.scripts
            ((lookupAssoc (db.tracking mref.data.is_transient)
              mref.data.migration_id).getD 0) db).res with
        | error e1 =>
          refine ⟨rfl, rfl, rfl, rfl, rfl, ?_⟩
          simp [eraseWarns_append, eraseWarns_conflictWarns]
        | ok p =>
          obtain ⟨cur, txn⟩ := p
          by_cases hne : (mref.data.target_version != cur) = true
          · simp only [hne, if_true]
            simp [eraseWarns_append, eraseWarns_conflictWarns]
          · simp only [hne, if_false]
            cases hcom : env.commitOk with
            | true => simp [eraseWarns_append, eraseWarns_conflictWarns]
            | false => simp [eraseWarns_append, eraseWarns_conflictWarns]

/-- When table creation succeeds, the call's log starts with the
repeat/conflict warning block. -/
lemma exec_logs_shape (env : DbEnv) (st : MigrationManagerState) (db : DbState)
    (mref : MigrationDataRef)
    (hco : creationOutcome env st.tables_created = Except.ok ()) :
    ∃ rest, (MigrationManagerState.execute_migration env st db mref).logs =
      conflictWarns st.repeat_transaction_watch mref ++ rest := by
  rw [MigrationManagerState.execute_migration, create_migrations_table_eq, hco]
  dsimp only
  cases hbeg : env.beginOk with
  | false => exact ⟨[LogEntry.traceRunning mref.data.migration_set_name], rfl⟩
  | true =>
    cases hq : env.queryOk (query_migrations_table_sql mref.data.is_transient)
        mref.data.migration_id with
    | false => exact ⟨[LogEntry.traceRunning mref.data.migration_set_name], rfl⟩
    | true =>
      cases hres : (runScripts env mref.data mref.data.scripts
          ((lookupAssoc (db.tracking mref.data.is_transient)
            mref.data.migration_id).getD 0) db).res with
      | error e1 =>
        exact ⟨LogEntry.traceRunning mref.data.migration_set_name :: (runScripts env mref.data mref.data.scripts
          ((lookupAssoc (db.tracking mref.data.is_transient)
            mref.data.migration_id).getD 0) db).logs, by simp⟩
      | ok p =>
        obtain ⟨cur, txn⟩ := p
        by_cases hne : (mref.data.target_version != cur) = true
        · simp only [hne, if_true]
          exact ⟨LogEntry.traceRunning mref.data.migration_set_name :: ((runScripts env mref.data mref.data.scripts
          ((lookupAssoc (db.tracking mref.data.is_transient)
            mref.data.migration_id).getD 0) db).logs ++
            [LogEntry.errorVersionMismatch mref.data.migration_set_name
              mref.data.target_version
              ((lookupAssoc (db.tracking mref.data.is_transient)
                mref.data.migration_id).getD 0) cur]), by simp⟩
        · simp only [hne, if_false]
          cases hcom : env.commitOk with
          | true =>
            exact ⟨LogEntry.traceRunning mref.data.migration_set_name :: (runScripts env mref.data mref.data.scripts
          ((lookupAssoc (db.tracking mref.data.is_transient)
            mref.data.migration_id).getD 0) db).logs, by simp⟩
          | false =>
            exact ⟨LogEntry.traceRunning mref.data.migration_set_name :: (runScripts env mref.data mref.data.scripts
          ((lookupAssoc (db.tracking mref.data.is_transient)
            mref.data.migration_id).getD 0) db).logs, by simp⟩

/-- The walk logs only per-script info lines, never a repeat warning. -/
lemma runScripts_no_warnRepeat (env : DbEnv) (m : MigrationData) :
    ∀ (scripts : List MigrationScriptData) (v : Nat) (txn : DbState) (i : String),
      LogEntry.warnRepeat i ∉ (runScripts env m scripts v txn).logs := by
  intro scripts
  induction scripts with
  | nil => intro v txn i; simp [runScripts]
  | cons s rest ih =>
    intro v txn i
    simp only [runScripts]
    by_cases hm : v == s.«from»
    · simp only [hm, if_true]
      by_cases hb : env.batchOk s.script_data
      · simp only [hb, if_true]
        by_cases he : env.execOk (replace_migrations_table_sql m.is_transient)
            m.migration_id s.«to»
        · simp only [he, if_true]
          simp only [List.mem_cons]
          push_neg
          exact ⟨by simp, ih _ _ _⟩
        · simp [he]
      · simp [hb]
    · simp only [hm, if_false]
      exact ih _ _ _

/-- The warning block compares the watch slot address with the static
data address, which never agree, so it never emits the repeat warning. -/
lemma conflictWarns_no_warnRepeat (w : List (String × MigrationDataRef))
    (mref : MigrationDataRef) (i : String) :
    LogEntry.warnRepeat i ∉ conflictWarns w mref := by
  unfold conflictWarns
  cases h : lookupAssoc w mref.data.migration_id with
  | none => simp
  | some prior =>
    simp [show (PtrAddr.watchSlot == PtrAddr.staticData mref.addr) = false from rfl]

/-- No `execute_migration` call, on any input, logs the repeat warning. -/
lemma exec_no_warnRepeat (env : DbEnv) (st : MigrationManagerState) (db : DbState)
    (mref : MigrationDataRef) (i : String) :
    LogEntry.warnRepeat i ∉ (MigrationManagerState.execute_migration env st db mref).logs := by
  rw [MigrationManagerState.execute_migration, create_migrations_table_eq]
  cases hco : creationOutcome env st.tables_created with
  | error e0 => simp
  | ok u =>
    cases u
    dsimp only
    have hcw := conflictWarns_no_warnRepeat st.repeat_transaction_watch mref i
    cases hbeg : env.beginOk with
    | false => simp [hcw]
    | true =>
      have hwl := runScripts_no_warnRepeat env mref.data mref.data.scripts
        ((lookupAssoc (db.tracking mref.data.is_transient) mref.data.migration_id).getD 0) db i
      cases hq : env.queryOk (query_migrations_table_sql mref.data.is_transient)
          mref.data.migration_id with
      | false => simp [hcw]
      | true =>
        cases hres : (runScripts env mref.data mref.data.scripts
            ((lookupAssoc (db.tracking mref.data.is_transient)
              mref.data.migration_id).getD 0) db).res with
        | error e1 => simp [hcw, hwl]
        | ok p =>
          obtain ⟨cur, txn⟩ := p
          by_cases hne : (mref.data.target_version != cur) = true
          · simp [hne, hcw, hwl]
          · simp only [hne, if_false]
            cases hcom : env.commitOk with
            | true => simp [hcw, hwl]
            | false => simp [hcw, hwl]

/-- C6: the repeat/conflict check never aborts a call, but its dispatch is
not the one the claim describes.  `data_off` is the address of the
`HashMap` slot (the cast of a `&&'static MigrationData` without a deref)
while `migration_off` is the static set's address, and the two never
agree: no call on any input ever logs the "executed more than once"
repeat warning.  Re-executing the very same set object instead logs the
conflict warning naming that set twice, with the slot's address as the
old address — while the call still succeeds, with the same result as with
an empty watch (the check stays soft). -/
theorem c6_repeat_warning_unreachable :
    (∀ (env : DbEnv) (st : MigrationManagerState) (db : DbState)
        (mref : MigrationDataRef) (i : String),
      LogEntry.warnRepeat i ∉ (MigrationManagerState.execute_migration env st db mref).logs) ∧
    LogEntry.warnConflict mref0.data.migration_id mref0.data.migration_set_name
        (PtrAddr.staticData mref0.addr) mref0.data.migration_set_name PtrAddr.watchSlot ∈
      (MigrationManagerState.execute_migration allOkEnv strp db0 mref0).logs ∧
    (MigrationManagerState.execute_migration allOkEnv strp db0 mref0).res =
      (MigrationManagerState.execute_migration allOkEnv ⟨strp.tables_created, []⟩ db0 mref0).res ∧
    isOkResult (MigrationManagerState.execute_migration allOkEnv strp db0 mref0).res = true :=
  ⟨fun env st db mref i => exec_no_warnRepeat env st db mref i, by decide, by decide, by decide⟩

/-- One call issues the creation batches exactly as a prefix of its trace
(and nowhere else), and its flag afterwards is true exactly when it was
true before or both creation batches succeeded. -/
lemma exec_creation_shape (env : DbEnv) (st : MigrationManagerState) (db : DbState)
    (mref : MigrationDataRef) :
    (∃ r, (MigrationManagerState.execute_migration env st db mref).trace =
        creationTrace env st.tables_created ++ r ∧ ∀ q, Stmt.connBatch q ∉ r) ∧
    (MigrationManagerState.execute_migration env st db mref).state.tables_created =
      (st.tables_created || (env.batchOk (create_migrations_table_sql false) &&
        env.batchOk (create_migrations_table_sql true))) := by
  rw [MigrationManagerState.execute_migration, create_migrations_table_eq]
  cases hco : creationOutcome env st.tables_created with
  | error e0 => exact ⟨⟨[], by simp⟩, rfl⟩
  | ok u =>
    cases u
    dsimp only
    cases hbeg : env.beginOk with
    | false => exact ⟨⟨[Stmt.begin], by simp⟩, rfl⟩
    | true =>
      cases hq : env.queryOk (query_migrations_table_sql mref.data.is_transient)
          mref.data.migration_id with
      | false =>
        exact ⟨⟨[Stmt.begin, Stmt.query (query_migrations_table_sql mref.data.is_transient)
          mref.data.migration_id], by simp⟩, rfl⟩
      | true =>
        cases hres : (runScripts env mref.data mref.data.scripts
            ((lookupAssoc (db.tracking mref.data.is_transient)
              mref.data.migration_id).getD 0) db).res with
        | error e1 =>
          refine ⟨⟨Stmt.begin :: Stmt.query (query_migrations_table_sql mref.data.is_transient)
            mref.data.migration_id :: (runScripts env mref.data mref.data.scripts
              ((lookupAssoc (db.tracking mref.data.is_transient)
                mref.data.migration_id).getD 0) db).trace, by simp, ?_⟩, rfl⟩
          intro q
          simp [runScripts_no_connBatch env mref.data mref.data.scripts
            ((lookupAssoc (db.tracking mref.data.is_transient)
              mref.data.migration_id).getD 0) db q]
        | ok p =>
          obtain ⟨cur, txn⟩ := p
          by_cases hne : (mref.data.target_version != cur) = true
          · simp only [hne, if_true]
            refine ⟨⟨Stmt.begin :: Stmt.query (query_migrations_table_sql mref.data.is_transient)
              mref.data.migration_id :: (runScripts env mref.data mref.data.scripts
                ((lookupAssoc (db.tracking mref.data.is_transient)
                  mref.data.migration_id).getD 0) db).trace, by simp, ?_⟩, trivial⟩
            intro q
            simp [runScripts_no_connBatch env mref.data mref.data.scripts
              ((lookupAssoc (db.tracking mref.data.is_transient)
                mref.data.migration_id).getD 0) db q]
          · simp only [hne, if_false]
            cases hcom : env.commitOk with
            | true =>
              refine ⟨⟨Stmt.begin :: Stmt.query (query_migrations_table_sql mref.data.is_transient)
                mref.data.migration_id :: ((runScripts env mref.data mref.data.scripts
                  ((lookupAssoc (db.tracking mref.data.is_transient)
                    mref.data.migration_id).getD 0) db).trace ++ [Stmt.commit]), by simp, ?_⟩, rfl⟩
              intro q
              simp [runScripts_no_connBatch env mref.data mref.data.scripts
                ((lookupAssoc (db.tracking mref.data.is_transient)
                  mref.data.migration_id).getD 0) db q]
            | false =>
              refine ⟨⟨Stmt.begin :: Stmt.query (query_migrations_table_sql mref.data.is_transient)
                mref.data.migration_id :: ((runScripts env mref.data mref.data.scripts
                  ((lookupAssoc (db.tracking mref.data.is_transient)
                    mref.data.migration_id).getD 0) db).trace ++ [Stmt.commit]), by simp, ?_⟩, rfl⟩
              intro q
              simp [runScripts_no_connBatch env mref.data mref.data.scripts
                ((lookupAssoc (db.tracking mref.data.is_transient)
                  mref.data.migration_id).getD 0) db q]

/-- C7: along every sequence of `execute_migration` calls on one manager,
creation batches appear only while `tables_created` is false and only as
the leading statements of a call; the flag is set exactly by a call in
which both creation batches succeed, and once true it stays true, so no
later call issues creation statements. -/
theorem c7_tables_created_discipline :
    ∀ (calls : List (DbEnv × MigrationDataRef)) (st : MigrationManagerState) (db : DbState),
      runCallsDiscipline calls st db := by
  intro calls
  induction calls with
  | nil => intro st db; trivial
  | cons c rest ih =>
    intro st db
    obtain ⟨env, mref⟩ := c
    refine ⟨(exec_creation_shape env st db mref).1, (exec_creation_shape env st db mref).2,
      fun hf => by simp [creationTrace, hf], fun hf => ?_, ih _ _⟩
    rw [(exec_creation_shape env st db mref).2, hf]
    rfl

/-- A call never changes the tracking table of the scope it does not
target. -/
lemma exec_other_scope (env : DbEnv) (st : MigrationManagerState) (db : DbState)
    (mref : MigrationDataRef) :
    ((MigrationManagerState.execute_migration env st db mref).db).tracking
      (!mref.data.is_transient) = db.tracking (!mref.data.is_transient) := by
  rw [MigrationManagerState.execute_migration, create_migrations_table_eq]
  cases hco : creationOutcome env st.tables_created with
  | error e0 => rfl
  | ok u =>
    cases u
    dsimp only
    cases hbeg : env.beginOk with
    | false => rfl
    | true =>
      cases hq : env.queryOk (query_migrations_table_sql mref.data.is_transient)
          mref.data.migration_id with
      | false => rfl
      | true =>
        cases hres : (runScripts env mref.data mref.data.scripts
            ((lookupAssoc (db.tracking mref.data.is_transient)
              mref.data.migration_id).getD 0) db).res with
        | error e1 => rfl
        | ok p =>
          obtain ⟨cur, txn⟩ := p
          by_cases hne : (mref.data.target_version != cur) = true
          · simp [hne]
          · simp only [hne, if_false]
            cases hcom : env.commitOk with
            | true =>
              exact runScripts_other_scope env mref.data mref.data.scripts
                ((lookupAssoc (db.tracking mref.data.is_transient)
                  mref.data.migration_id).getD 0) db cur txn hres
            | false => rfl

/-- C8: for either value of `is_transient`, the generated SQL targets the
table `sylphie_db_migrations_tracking` with columns `migration_name`
(text, primary key) and `current_version` (integer), creation is
`CREATE TABLE IF NOT EXISTS`, the upsert is `REPLACE INTO`, and the
`transient.` qualifier appears exactly when `is_transient` is true; and a
migration call never touches the other scope's tracking table, so a
persistent and a transient set with the same id are tracked
independently. -/
theorem c8_sql_shape_and_scope_isolation :
    (∀ b : Bool,
      strContainsSub "sylphie_db_migrations_tracking" (create_migrations_table_sql b) = true ∧
      strContainsSub "sylphie_db_migrations_tracking" (query_migrations_table_sql b) = true ∧
      strContainsSub "sylphie_db_migrations_tracking" (replace_migrations_table_sql b) = true ∧
      strStartsWith "CREATE TABLE IF NOT EXISTS " (create_migrations_table_sql b) = true ∧
      strStartsWith "REPLACE INTO " (replace_migrations_table_sql b) = true ∧
      strContainsSub "migration_name TEXT NOT NULL PRIMARY KEY" (create_migrations_table_sql b) = true ∧
      strContainsSub "current_version INTEGER NOT NULL" (create_migrations_table_sql b) = true ∧
      strContainsSub "(migration_name, current_version)" (replace_migrations_table_sql b) = true ∧
      strContainsSub "transient." (create_migrations_table_sql b) = b ∧
      strContainsSub "transient." (query_migrations_table_sql b) = b ∧
      strContainsSub "transient." (replace_migrations_table_sql b) = b) ∧
    (∀ (env : DbEnv) (st : MigrationManagerState) (db : DbState) (mref : MigrationDataRef),
      ((MigrationManagerState.execute_migration env st db mref).db).tracking
        (!mref.data.is_transient) = db.tracking (!mref.data.is_transient)) :=
  ⟨by decide, fun env st db mref => exec_other_scope env st db mref⟩
